import Mathlib

/-!
Shallow embedding of the PyGPSClient UBX decode-dispatch-state pipeline
(`src/pygpsclient/ubx_handler.py`).

Conventions of the embedding:
* Python numbers produced by `/` scaling are embedded as exact rationals (`ℚ`).
* A pyubx2 `UBXMessage` is embedded as `ParsedMessage`: an identity string plus
  one `Option ℤ` per payload attribute the handler code reads (a missing
  attribute extracts to `none`).
* A field-extraction or conversion failure is the spec's `DecodeFieldError`.
  The navigation handlers wrap their bodies in a try/except (source lines
  151-170 etc.), embedded by `tryRun`, which applies the sequence of
  assignments until the first failing extraction and reports whether a
  failure was caught.  The config handlers have no try/except in the source,
  so they are embedded as `Except DecodeFieldError`-returning functions whose
  errors propagate to `process_data`.
* The byte-level decoder (`UBXMessage.parse` and friends) lives in the
  external pyubx2 library, not in this repository; those definitions are
  modelled from the spec (each carries a `Modelled from the spec:` comment).
* Mutation of the handler object becomes explicit state passing over
  `UBXState`; calls to presentation collaborators (banner, map, console,
  sky view, graph) become elements of an `Output` list.
-/

/-- Satellite record `(svid, elev, azim, cno)` appended to `gsv_data`. -/
abbrev SatRec := ℤ × ℤ × ℤ × ℤ

/-- Modelled from the spec: the time-of-week → UTC conversion
(`UBXMessage.itow2utc` of the external pyubx2 library).  The spec gives no
conversion formula, so a UTC value is modelled as the tagged raw
time-of-week. -/
structure UtcTime where
  itow : ℤ
deriving Repr, DecidableEq

/-- Modelled from the spec: value stored per identity in the Config State
Store — a fixed-shape tuple per config message kind (§4.4 of the spec). -/
inductive ConfigVal where
  | rates (ddc uart1 uart2 usb spi rsvd : ℤ)
  | infmasks (ddc uart1 uart2 usb spi : ℤ)
  | portcfg (mode baudRate inProtoMask outProtoMask : ℤ)
deriving Repr, DecidableEq

/-- The Config State Store `ubx_state`: a Python dict embedded as an
insertion-ordered association list (`storeInsert` replaces in place, as a
Python dict assignment does). -/
abbrev ConfigStore := List (String × ConfigVal)

/-- Assignment `store[key] = v` on a Python dict: replace the entry in place if the key
is present, otherwise append it. -/
def storeInsert : ConfigStore → String → ConfigVal → ConfigStore
  | [], k, v => [(k, v)]
  | (k1, v1) :: rest, k, v =>
      if k1 = k then (k, v) :: rest else (k1, v1) :: storeInsert rest k v

/-- The mutable state of `UBXHandler` (constructor, source lines 35-51);
field defaults are the constructor's initial values. -/
structure UBXState where
  gsv_data : List SatRec := []
  lon : ℚ := 0
  lat : ℚ := 0
  alt : ℚ := 0
  track : ℚ := 0
  speed : ℚ := 0
  pdop : ℚ := 0
  hdop : ℚ := 0
  vdop : ℚ := 0
  hacc : ℚ := 0
  vacc : ℚ := 0
  utc : Option UtcTime := none
  sip : ℤ := 0
  fix : String := "-"
  ubx_state : ConfigStore := []
deriving Repr, DecidableEq

/-- The freshly constructed handler state. -/
def initState : UBXState := {}

/-- A pyubx2 `UBXMessage` as the handler code consumes it: the identity
string plus one optional raw-integer value per payload attribute read by
`ubx_handler.py`.  `none` embeds a missing attribute (extraction fails).
`svs` holds the repeated `(svid_NN, elev_NN, azim_NN, cno_NN)` records of a
NAV-SVINFO message. -/
structure ParsedMessage where
  identity : String := "unknown"
  iTOW : Option ℤ := none
  lon : Option ℤ := none
  lat : Option ℤ := none
  hMSL : Option ℤ := none
  hAcc : Option ℤ := none
  vAcc : Option ℤ := none
  pDOP : Option ℤ := none
  hDOP : Option ℤ := none
  vDOP : Option ℤ := none
  numSV : Option ℤ := none
  gSpeed : Option ℤ := none
  headMot : Option ℤ := none
  heading : Option ℤ := none
  fixType : Option ℤ := none
  gpsFix : Option ℤ := none
  numCh : Option ℤ := none
  svs : List SatRec := []
  msgClass : Option ℤ := none
  msgID : Option ℤ := none
  rateDDC : Option ℤ := none
  rateUART1 : Option ℤ := none
  rateUART2 : Option ℤ := none
  rateUSB : Option ℤ := none
  rateSPI : Option ℤ := none
  reserved : Option ℤ := none
  infMsgMaskDDC : Option ℤ := none
  infMsgMaskUART1 : Option ℤ := none
  infMsgMaskUART2 : Option ℤ := none
  infMsgMaskUSB : Option ℤ := none
  infMsgMaskSPI : Option ℤ := none
  mode : Option ℤ := none
  baudRate : Option ℤ := none
  inProtoMask : Option ℤ := none
  outProtoMask : Option ℤ := none
deriving Repr, DecidableEq

/-- A message with no decodable attributes. -/
def emptyMsg : ParsedMessage := {}

/-- Modelled from the spec: the fix-type lookup (`UBXMessage.gpsfix2str` of
the external pyubx2 library), the spec's fixed enumeration
no-fix / dead-reckoning / 2D / 3D / GPS+dead-reckoning / time-only; the spec
leaves codes outside the table unspecified, here mapped to "no-fix". -/
def gpsfix2str (code : ℤ) : String :=
  if code = 1 then ("dead-reckoning")
  else if code = 2 then ("2D")
  else if code = 3 then ("3D")
  else if code = 4 then ("GPS+dead-reckoning")
  else if code = 5 then ("time-only")
  else ("no-fix")

/-- Modelled from the spec: `itow2utc` of the external pyubx2 library
(time-of-week → UTC). -/
def itow2utc (itow : ℤ) : UtcTime := ⟨itow⟩

/-- The spec's `DecodeFieldError`: a field missing, or failing extraction or
conversion, inside a handler. -/
structure DecodeFieldError where
  field : String
deriving Repr, DecidableEq

/-- The spec's `FramingError`: sync-marker, length, checksum or class/id
failure during `parse`. -/
structure FramingError where
  reason : String
deriving Repr, DecidableEq

/-- An error escaping `process_data`: either a parse failure or an
uncaught `DecodeFieldError` from a config handler. -/
inductive PipelineError where
  | framing (e : FramingError)
  | decode (e : DecodeFieldError)
deriving Repr, DecidableEq

/-- The arguments of one `update_banner` call (only the keywords actually
passed are `some`). -/
structure BannerArgs where
  time : Option UtcTime := none
  lat : Option ℚ := none
  lon : Option ℚ := none
  alt : Option ℚ := none
  hacc : Option ℚ := none
  vacc : Option ℚ := none
  pdop : Option ℚ := none
  dop : Option ℚ := none
  hdop : Option ℚ := none
  vdop : Option ℚ := none
  sip : Option ℤ := none
  siv : Option ℤ := none
  speed : Option ℚ := none
  track : Option ℚ := none
  fix : Option String := none
deriving Repr, DecidableEq

/-- Text written to the console: raw bytes or the parsed message, by the
`raw` display setting. -/
inductive ConsoleText where
  | rawBytes (bs : List ℕ)
  | parsedMsg (m : ParsedMessage)
deriving Repr, DecidableEq

/-- One call to a presentation collaborator. -/
inductive Output where
  | banner (args : BannerArgs)
  | mapview (lat lon hacc vacc : ℚ) (mode : String) (centered : Bool)
  | console (text : ConsoleText)
  | sats (recs : List SatRec)
  | graph (recs : List SatRec) (count : ℤ)
deriving Repr, DecidableEq

/-- The settings collaborator's `get_settings()` dict: `raw` display flag
and `webmap` flag. -/
structure Settings where
  raw : Bool := false
  webmap : Bool := false
deriving Repr, DecidableEq

/-- Modelled from the spec: `UBX_CONFIG_MESSAGES` of the external pyubx2
library — the enumerated configurable-message catalog, a dict from the
2-byte class+id key to the message name.  Its exact contents are external to
this repository; a fixed representative catalog of configurable NMEA and
UBX-NAV message identities stands in for it (the claims about the Config
Poller and the CFG-MSG handler are insensitive to the particular entries). -/
def UBX_CONFIG_MESSAGES : List ((ℤ × ℤ) × String) :=
  [ ((0xF0, 0x00), "GGA"),
    ((0xF0, 0x01), "GLL"),
    ((0xF0, 0x02), "GSA"),
    ((0xF0, 0x03), "GSV"),
    ((0xF0, 0x04), "RMC"),
    ((0xF0, 0x05), "VTG"),
    ((0x01, 0x02), "NAV-POSLLH"),
    ((0x01, 0x04), "NAV-DOP"),
    ((0x01, 0x06), "NAV-SOL"),
    ((0x01, 0x07), "NAV-PVT"),
    ((0x01, 0x12), "NAV-VELNED"),
    ((0x01, 0x30), "NAV-SVINFO") ]

/-- One outbound poll request written to the transport sink
(`UBXMessage('CFG', msgtype, payload, POLL).serialize()`), kept structured. -/
structure PollOut where
  cls : String := "CFG"
  msgtype : String
  payload : List ℤ := []
deriving Repr, DecidableEq

/-- The CFG-MSG rate poll for one catalog entry (payload = the entry's
2-byte class+id key). -/
def cfgMsgPoll (entry : (ℤ × ℤ) × String) : PollOut :=
  { msgtype := "CFG-MSG", payload := [entry.1.1, entry.1.2] }

/-- Poller `UBXHandler.poll_ubx_config` (source lines 53-74): the deterministic
sequence of poll requests written to the serial sink, fire-and-forget. -/
def poll_ubx_config : List PollOut :=
  [{ msgtype := "CFG-PRT" }, { msgtype := "CFG-USB" }]
    ++ UBX_CONFIG_MESSAGES.map cfgMsgPoll
    ++ [{ msgtype := "CFG-INF", payload := [0] }]

/-- A try-block of sequential field assignments: each step is `none` when
its field extraction fails, `some f` when it extracts and assigns via `f`.
Execution applies the steps in order and stops at the first failure; the
returned flag records whether a `DecodeFieldError` was raised (and caught by
the handler's except clause). -/
def tryRun : UBXState → List (Option (UBXState → UBXState)) → UBXState × Bool
  | s, [] => (s, false)
  | s, none :: _ => (s, true)
  | s, some f :: rest => tryRun (f s) rest

/-- The assignment sequence of `_process_NAV_POSLLH` (source lines 152-157),
in the source's textual order. -/
def posllhSteps (d : ParsedMessage) : List (Option (UBXState → UBXState)) :=
  [ d.iTOW.map (fun v s => { s with utc := some (itow2utc v) }),
    d.lat.map (fun v s => { s with lat := (v : ℚ) / 10 ^ 7 }),
    d.lon.map (fun v s => { s with lon := (v : ℚ) / 10 ^ 7 }),
    d.hMSL.map (fun v s => { s with alt := (v : ℚ) / 1000 }),
    d.hAcc.map (fun v s => { s with hacc := (v : ℚ) / 1000 }),
    d.vAcc.map (fun v s => { s with vacc := (v : ℚ) / 1000 }) ]

/-- Handler `UBXHandler._process_NAV_POSLLH` (source lines 146-170).  On success it
calls `update_banner` and `update_map` (centered unless the webmap setting
is on); on a caught `DecodeFieldError` it emits nothing. -/
def process_NAV_POSLLH (settings : Settings) (d : ParsedMessage) (s : UBXState) :
    UBXState × List Output × Bool :=
  let r := tryRun s (posllhSteps d)
  (r.1,
   if r.2 then [] else
     [ Output.banner { time := r.1.utc, lat := some r.1.lat, lon := some r.1.lon,
                       alt := some r.1.alt, hacc := some r.1.hacc, vacc := some r.1.vacc },
       Output.mapview r.1.lat r.1.lon r.1.hacc r.1.vacc "3D" (!settings.webmap) ],
   r.2)

/-- The assignment sequence of `_process_NAV_PVT` (source lines 178-188), in
the source's textual order; the final step extracts `fixType` (for the local
`fix` string) without assigning a state field. -/
def pvtSteps (d : ParsedMessage) : List (Option (UBXState → UBXState)) :=
  [ d.iTOW.map (fun v s => { s with utc := some (itow2utc v) }),
    d.lat.map (fun v s => { s with lat := (v : ℚ) / 10 ^ 7 }),
    d.lon.map (fun v s => { s with lon := (v : ℚ) / 10 ^ 7 }),
    d.hMSL.map (fun v s => { s with alt := (v : ℚ) / 1000 }),
    d.hAcc.map (fun v s => { s with hacc := (v : ℚ) / 1000 }),
    d.vAcc.map (fun v s => { s with vacc := (v : ℚ) / 1000 }),
    d.pDOP.map (fun v s => { s with pdop := (v : ℚ) }),
    d.numSV.map (fun v s => { s with sip := v }),
    d.gSpeed.map (fun v s => { s with speed := (v : ℚ) / 100 }),
    d.headMot.map (fun v s => { s with track := (v : ℚ) / 10 ^ 5 }),
    d.fixType.map (fun _ s => s) ]

/-- Handler `UBXHandler._process_NAV_PVT` (source lines 172-204). -/
def process_NAV_PVT (settings : Settings) (d : ParsedMessage) (s : UBXState) :
    UBXState × List Output × Bool :=
  let r := tryRun s (pvtSteps d)
  (r.1,
   if r.2 then [] else
     [ Output.banner { time := r.1.utc, lat := some r.1.lat, lon := some r.1.lon,
                       alt := some r.1.alt, hacc := some r.1.hacc, vacc := some r.1.vacc,
                       pdop := some r.1.pdop, sip := some r.1.sip,
                       speed := some r.1.speed, fix := d.fixType.map gpsfix2str,
                       track := some r.1.track },
       Output.mapview r.1.lat r.1.lon r.1.hacc r.1.vacc "3D" (!settings.webmap) ],
   r.2)

/-- The assignment sequence of `_process_NAV_VELNED` (source lines 212-213). -/
def velnedSteps (d : ParsedMessage) : List (Option (UBXState → UBXState)) :=
  [ d.heading.map (fun v s => { s with track := (v : ℚ) / 10 ^ 5 }),
    d.gSpeed.map (fun v s => { s with speed := (v : ℚ) / 100 }) ]

/-- Handler `UBXHandler._process_NAV_VELNED` (source lines 206-217). -/
def process_NAV_VELNED (d : ParsedMessage) (s : UBXState) :
    UBXState × List Output × Bool :=
  let r := tryRun s (velnedSteps d)
  (r.1,
   if r.2 then [] else
     [Output.banner { speed := some r.1.speed, track := some r.1.track }],
   r.2)

/-- Handler `UBXHandler._process_NAV_SVINFO` (source lines 219-239).  The handler
first clears `gsv_data`, then extracts the advertised channel count, calls
`update_banner(siv=...)`, and appends one `(svid, elev, azim, cno)` record
per index; a missing record raises a caught `DecodeFieldError`, leaving the
records appended so far.  `update_sats`/`update_graph` run only when every
record extracted. -/
def process_NAV_SVINFO (d : ParsedMessage) (s : UBXState) :
    UBXState × List Output × Bool :=
  let s1 := { s with gsv_data := ([] : List SatRec) }
  match d.numCh with
  | none => (s1, [], true)
  | some n =>
      let recs := d.svs.take n.toNat
      let s2 := { s1 with gsv_data := recs }
      if n.toNat ≤ d.svs.length then
        (s2, [Output.banner { siv := some n }, Output.sats recs, Output.graph recs n], false)
      else
        (s2, [Output.banner { siv := some n }], true)

/-- The assignment sequence of `_process_NAV_SOL` (source lines 247-249);
the final step extracts `gpsFix` without assigning a state field. -/
def solSteps (d : ParsedMessage) : List (Option (UBXState → UBXState)) :=
  [ d.pDOP.map (fun v s => { s with pdop := (v : ℚ) / 100 }),
    d.numSV.map (fun v s => { s with sip := v }),
    d.gpsFix.map (fun _ s => s) ]

/-- Handler `UBXHandler._process_NAV_SOL` (source lines 241-254). -/
def process_NAV_SOL (d : ParsedMessage) (s : UBXState) :
    UBXState × List Output × Bool :=
  let r := tryRun s (solSteps d)
  (r.1,
   if r.2 then [] else
     [Output.banner { dop := some r.1.pdop, fix := d.gpsFix.map gpsfix2str,
                      sip := some r.1.sip }],
   r.2)

/-- The assignment sequence of `_process_NAV_DOP` (source lines 262-264). -/
def dopSteps (d : ParsedMessage) : List (Option (UBXState → UBXState)) :=
  [ d.pDOP.map (fun v s => { s with pdop := (v : ℚ) / 100 }),
    d.hDOP.map (fun v s => { s with hdop := (v : ℚ) / 100 }),
    d.vDOP.map (fun v s => { s with vdop := (v : ℚ) / 100 }) ]

/-- Handler `UBXHandler._process_NAV_DOP` (source lines 256-269). -/
def process_NAV_DOP (d : ParsedMessage) (s : UBXState) :
    UBXState × List Output × Bool :=
  let r := tryRun s (dopSteps d)
  (r.1,
   if r.2 then [] else
     [Output.banner { dop := some r.1.pdop, hdop := some r.1.hdop,
                      vdop := some r.1.vdop }],
   r.2)

/-- Handler `UBXHandler._process_CFG_MSG` (source lines 116-125).  No try/except in
the source: a failing key lookup or field extraction propagates out as an
error.  The store write is the final statement. -/
def process_CFG_MSG (d : ParsedMessage) (s : UBXState) :
    Except DecodeFieldError UBXState :=
  match d.msgClass, d.msgID with
  | some mc, some mid =>
      match List.lookup (mc, mid) UBX_CONFIG_MESSAGES with
      | some msgtype =>
          match d.rateDDC, d.rateUART1, d.rateUART2, d.rateUSB, d.rateSPI, d.reserved with
          | some r1, some r2, some r3, some r4, some r5, some r6 =>
              .ok { s with ubx_state :=
                      storeInsert s.ubx_state msgtype (ConfigVal.rates r1 r2 r3 r4 r5 r6) }
          | _, _, _, _, _, _ => .error ⟨"CFG-MSG rates"⟩
      | none => .error ⟨"CFG-MSG msgtype"⟩
  | _, _ => .error ⟨"CFG-MSG class-id"⟩

/-- Handler `UBXHandler._process_CFG_INF` (source lines 127-135); no try/except. -/
def process_CFG_INF (d : ParsedMessage) (s : UBXState) :
    Except DecodeFieldError UBXState :=
  match d.infMsgMaskDDC, d.infMsgMaskUART1, d.infMsgMaskUART2,
        d.infMsgMaskUSB, d.infMsgMaskSPI with
  | some m1, some m2, some m3, some m4, some m5 =>
      .ok { s with ubx_state :=
              storeInsert s.ubx_state ("CFG-INF") (ConfigVal.infmasks m1 m2 m3 m4 m5) }
  | _, _, _, _, _ => .error ⟨"CFG-INF masks"⟩

/-- Handler `UBXHandler._process_CFG_PRT` (source lines 137-144); no try/except. -/
def process_CFG_PRT (d : ParsedMessage) (s : UBXState) :
    Except DecodeFieldError UBXState :=
  match d.mode, d.baudRate, d.inProtoMask, d.outProtoMask with
  | some m, some b, some i, some o =>
      .ok { s with ubx_state :=
              storeInsert s.ubx_state ("CFG-PRT") (ConfigVal.portcfg m b i o) }
  | _, _, _, _ => .error ⟨"CFG-PRT fields"⟩

/-! ## The byte-level decoder, modelled from the spec (§4.1)

The decoder is `UBXMessage.parse` of the external pyubx2 library.  Spec
frame layout: 2 sync bytes, 1 class byte, 1 id byte, 2-byte little-endian
payload length, payload, 2-byte additive/rotating checksum computed over
class..payload.  In strict mode a sync, length, checksum or class/id-lookup
failure fails with `FramingError`; in permissive mode it instead yields a
message with the explicit "unknown" identity.  Field accessors return raw
little-endian integers at the fixed offsets of the receiver protocol's
authoritative message tables (to which the spec defers). -/

/-- Little-endian value of a byte list. -/
def leNat (l : List ℕ) : ℕ := l.foldr (fun b acc => b + 256 * acc) 0

/-- Modelled from the spec: unsigned little-endian field accessor; `none`
when the payload is too short (extraction fails). -/
def readU (p : List ℕ) (off width : ℕ) : Option ℤ :=
  if off + width ≤ p.length then some (leNat ((p.drop off).take width) : ℤ)
  else none

/-- Modelled from the spec: signed (two's-complement) little-endian field
accessor. -/
def readI (p : List ℕ) (off width : ℕ) : Option ℤ :=
  if off + width ≤ p.length then
    let v := leNat ((p.drop off).take width)
    some (if v < 2 ^ (8 * width - 1) then (v : ℤ) else (v : ℤ) - 2 ^ (8 * width))
  else none

/-- Modelled from the spec: the repeated fixed-width satellite records of a
NAV-SVINFO payload (12 bytes per channel after the 8-byte header), read as
`(svid, elev, azim, cno)`. -/
def svRecords (p : List ℕ) : List SatRec :=
  (List.range ((p.length - 8) / 12)).map fun i =>
    ((readU p (8 + 12 * i + 1) 1).getD 0,
     (readI p (8 + 12 * i + 5) 1).getD 0,
     (readI p (8 + 12 * i + 6) 2).getD 0,
     (readU p (8 + 12 * i + 4) 1).getD 0)

/-- Modelled from the spec: the class/id → identity registry (`UBX_MSGIDS`
of the external pyubx2 library), restricted to the identities this program
handles or polls. -/
def UBX_MSGIDS : List ((ℕ × ℕ) × String) :=
  [ ((0x06, 0x01), "CFG-MSG"),
    ((0x06, 0x00), "CFG-PRT"),
    ((0x06, 0x02), "CFG-INF"),
    ((0x06, 0x1B), "CFG-USB"),
    ((0x01, 0x02), "NAV-POSLLH"),
    ((0x01, 0x07), "NAV-PVT"),
    ((0x01, 0x12), "NAV-VELNED"),
    ((0x01, 0x30), "NAV-SVINFO"),
    ((0x01, 0x06), "NAV-SOL"),
    ((0x01, 0x04), "NAV-DOP") ]

/-- Modelled from the spec: decode the payload of an identified message into
its typed fields, at the fixed little-endian offsets of the receiver
protocol's authoritative tables. -/
def decodePayload (ident : String) (p : List ℕ) : ParsedMessage :=
  if ident = "NAV-POSLLH" then
    { identity := ident, iTOW := readU p 0 4, lon := readI p 4 4, lat := readI p 8 4,
      hMSL := readI p 16 4, hAcc := readU p 20 4, vAcc := readU p 24 4 }
  else if ident = "NAV-PVT" then
    { identity := ident, iTOW := readU p 0 4, fixType := readU p 20 1,
      numSV := readU p 23 1, lon := readI p 24 4, lat := readI p 28 4,
      hMSL := readI p 36 4, hAcc := readU p 40 4, vAcc := readU p 44 4,
      gSpeed := readI p 60 4, headMot := readI p 64 4, pDOP := readU p 76 2 }
  else if ident = "NAV-VELNED" then
    { identity := ident, iTOW := readU p 0 4, gSpeed := readU p 20 4,
      heading := readI p 24 4 }
  else if ident = "NAV-DOP" then
    { identity := ident, iTOW := readU p 0 4, pDOP := readU p 6 2,
      vDOP := readU p 10 2, hDOP := readU p 12 2 }
  else if ident = "NAV-SOL" then
    { identity := ident, iTOW := readU p 0 4, gpsFix := readU p 10 1,
      pDOP := readU p 44 2, numSV := readU p 47 1 }
  else if ident = "NAV-SVINFO" then
    { identity := ident, iTOW := readU p 0 4, numCh := readU p 4 1,
      svs := svRecords p }
  else if ident = "CFG-MSG" then
    { identity := ident, msgClass := readU p 0 1, msgID := readU p 1 1,
      rateDDC := readU p 2 1, rateUART1 := readU p 3 1, rateUART2 := readU p 4 1,
      rateUSB := readU p 5 1, rateSPI := readU p 6 1, reserved := readU p 7 1 }
  else if ident = "CFG-INF" then
    { identity := ident, infMsgMaskDDC := readU p 4 1, infMsgMaskUART1 := readU p 5 1,
      infMsgMaskUART2 := readU p 6 1, infMsgMaskUSB := readU p 7 1,
      infMsgMaskSPI := readU p 8 1 }
  else if ident = "CFG-PRT" then
    { identity := ident, mode := readU p 4 4, baudRate := readU p 8 4,
      inProtoMask := readU p 12 2, outProtoMask := readU p 14 2 }
  else { identity := ident }

/-- The spec's additive/rotating (8-bit Fletcher) frame checksum. -/
def calcChecksum (l : List ℕ) : ℕ × ℕ :=
  l.foldl (fun ab b => let a := (ab.1 + b) % 256; (a, (ab.2 + a) % 256)) (0, 0)

/-- The payload length announced by the 2-byte little-endian length field. -/
def frameLen (bs : List ℕ) : ℕ := bs.getD 4 0 + 256 * bs.getD 5 0

/-- Sync-marker check (`0xB5 0x62`). -/
def syncOk (bs : List ℕ) : Bool := bs.take 2 = [0xB5, 0x62]

/-- Frame-length consistency: total size is 6 header bytes + payload +
2 checksum bytes. -/
def lenOk (bs : List ℕ) : Bool := bs.length = 8 + frameLen bs

/-- The class..payload span the checksum is computed over. -/
def frameBody (bs : List ℕ) : List ℕ := (bs.drop 2).take (4 + frameLen bs)

/-- Checksum check: stored checksum bytes against `calcChecksum` of
class..payload. -/
def ckOk (bs : List ℕ) : Bool :=
  let ck := calcChecksum (frameBody bs)
  bs.getD (6 + frameLen bs) 0 = ck.1 ∧ bs.getD (7 + frameLen bs) 0 = ck.2

/-- The first failing framing check, if any (sync, then length, then
checksum). -/
def framingReason (bs : List ℕ) : Option String :=
  if ¬ syncOk bs then some ("sync")
  else if ¬ lenOk bs then some ("length")
  else if ¬ ckOk bs then some ("checksum")
  else none

/-- The frame's class byte. -/
def frameCls (bs : List ℕ) : ℕ := bs.getD 2 0

/-- The frame's id byte. -/
def frameId (bs : List ℕ) : ℕ := bs.getD 3 0

/-- The frame's payload bytes. -/
def framePayload (bs : List ℕ) : List ℕ := (bs.drop 6).take (frameLen bs)

namespace UBXMessage

/-- Modelled from the spec: `UBXMessage.parse(bytes, strict)` of the
external pyubx2 library (spec §4.1): fails with `FramingError` when the
sync marker, length, checksum, or class/id lookup fails in strict mode, and
instead yields a message with the explicit "unknown" identity in permissive
mode. -/
def parse (bs : List ℕ) (strict : Bool) : Except FramingError ParsedMessage :=
  match framingReason bs with
  | some r => if strict then .error ⟨r⟩ else .ok { identity := "unknown" }
  | none =>
      match List.lookup (frameCls bs, frameId bs) UBX_MSGIDS with
      | some ident => .ok (decodePayload ident (framePayload bs))
      | none => if strict then .error ⟨"class-id"⟩ else .ok { identity := "unknown" }

end UBXMessage

/-- One `if parsed.identity == ...generic...` guard around a config handler in
`process_data`: run the handler when the identity matches, else pass the
state through; a handler error propagates (no try/except around the
dispatch). -/
def runCfg (cond : Bool) (h : UBXState → Except DecodeFieldError UBXState)
    (s : UBXState) : Except DecodeFieldError UBXState :=
  if cond then h s else .ok s

/-- One identity guard around a navigation handler in `process_data`: run
the handler when the identity matches (its caught-error flag is not
consulted by the dispatcher), else pass the state through. -/
def runNav (cond : Bool) (h : UBXState → UBXState × List Output × Bool)
    (s : UBXState) : UBXState × List Output :=
  if cond then ((h s).1, (h s).2.1) else (s, [])

/-- The console echo `_update_console` (source lines 106-114): raw or parsed
text by the `raw` display setting. -/
def consoleOut (settings : Settings) (data : List ℕ) (parsed : ParsedMessage) : Output :=
  Output.console (if settings.raw then ConsoleText.rawBytes data
                  else ConsoleText.parsedMsg parsed)

/-- The config-handler stage of `process_data` (source lines 83-88): the
three identity guards in textual order; an escaping `DecodeFieldError`
aborts the stage. -/
def cfgStage (parsed : ParsedMessage) (s : UBXState) :
    Except DecodeFieldError UBXState :=
  (runCfg (parsed.identity = "CFG-MSG") (process_CFG_MSG parsed) s).bind fun s1 =>
    (runCfg (parsed.identity = "CFG-PRT") (process_CFG_PRT parsed) s1).bind fun s2 =>
      runCfg (parsed.identity = "CFG-INF") (process_CFG_INF parsed) s2

/-- Dispatcher `UBXHandler.process_data` (source lines 76-104): parse permissively,
route by identity through the guards in textual order, then echo to the
console.  An uncaught error (parse failure, or a `DecodeFieldError`
escaping a config handler) aborts the call. -/
def process_data (settings : Settings) (s : UBXState) (data : List ℕ) :
    Except PipelineError (UBXState × List Output × ParsedMessage) :=
  match UBXMessage.parse data false with
  | .error e => .error (PipelineError.framing e)
  | .ok parsed =>
      match cfgStage parsed s with
      | .error e => .error (PipelineError.decode e)
      | .ok sc =>
          let r1 := runNav (parsed.identity = "NAV-POSLLH") (process_NAV_POSLLH settings parsed) sc
          let r2 := runNav (parsed.identity = "NAV-PVT") (process_NAV_PVT settings parsed) r1.1
          let r3 := runNav (parsed.identity = "NAV-VELNED") (process_NAV_VELNED parsed) r2.1
          let r4 := runNav (parsed.identity = "NAV-SVINFO") (process_NAV_SVINFO parsed) r3.1
          let r5 := runNav (parsed.identity = "NAV-SOL") (process_NAV_SOL parsed) r4.1
          let r6 := runNav (parsed.identity = "NAV-DOP") (process_NAV_DOP parsed) r5.1
          .ok (r6.1,
               r1.2 ++ r2.2 ++ r3.2 ++ r4.2 ++ r5.2 ++ r6.2 ++ [consoleOut settings data parsed],
               parsed)

/-- The nine identities with a registered handler in `process_data`. -/
def registeredIdentities : List String :=
  ["CFG-MSG", "CFG-PRT", "CFG-INF", "NAV-POSLLH", "NAV-PVT",
   "NAV-VELNED", "NAV-SVINFO", "NAV-SOL", "NAV-DOP"]

/-! ## Helper lemmas -/

/-- A try-block of sequential assignments applies exactly the longest prefix
of steps whose extractions succeed, and reports an error iff some extraction
fails. -/
theorem tryRun_eq_takeWhile (steps : List (Option (UBXState → UBXState))) :
    ∀ s : UBXState,
      tryRun s steps =
        ((steps.takeWhile Option.isSome).foldl (fun t f => f.getD id t) s,
         steps.any Option.isNone) := by
  induction steps with
  | nil => intro s; rfl
  | cons head tail ih =>
      intro s
      cases head with
      | none => simp [tryRun, List.takeWhile_cons, List.any_cons]
      | some f => simp [tryRun, List.takeWhile_cons, List.any_cons, ih (f s)]

/-- Re-assigning the same key to the same value leaves the store unchanged. -/
theorem storeInsert_idem (l : ConfigStore) (k : String) (v : ConfigVal) :
    storeInsert (storeInsert l k v) k v = storeInsert l k v := by
  induction l with
  | nil => simp [storeInsert]
  | cons p rest ih =>
      obtain ⟨k1, v1⟩ := p
      by_cases h : k1 = k <;> simp [storeInsert, h, ih]

/-! ## Claim C10 — navigation handlers perform prefix updates -/

/-- C10: in the navigation handlers (`_process_NAV_POSLLH`, `_process_NAV_PVT`,
`_process_NAV_DOP`), state fields are assigned sequentially in the handler's
fixed textual order, so on a conversion failure at field k the resulting
state is the sequential application of exactly the assignments before k
(fields before k hold the new message's values, fields from k onward retain
their prior values — a prefix update, not all-or-nothing), and a
`DecodeFieldError` is caught iff some extraction fails. -/
theorem nav_handlers_prefix_update :
    (∀ (settings : Settings) (d : ParsedMessage) (s : UBXState),
       process_NAV_POSLLH settings d s =
         (((posllhSteps d).takeWhile Option.isSome).foldl (fun t f => f.getD id t) s,
          (process_NAV_POSLLH settings d s).2.1,
          (posllhSteps d).any Option.isNone)) ∧
    (∀ (settings : Settings) (d : ParsedMessage) (s : UBXState),
       process_NAV_PVT settings d s =
         (((pvtSteps d).takeWhile Option.isSome).foldl (fun t f => f.getD id t) s,
          (process_NAV_PVT settings d s).2.1,
          (pvtSteps d).any Option.isNone)) ∧
    (∀ (d : ParsedMessage) (s : UBXState),
       process_NAV_DOP d s =
         (((dopSteps d).takeWhile Option.isSome).foldl (fun t f => f.getD id t) s,
          (process_NAV_DOP d s).2.1,
          (dopSteps d).any Option.isNone)) := by
  refine ⟨fun settings d s => ?_, fun settings d s => ?_, fun d s => ?_⟩ <;>
    simp [process_NAV_POSLLH, process_NAV_PVT, process_NAV_DOP, tryRun_eq_takeWhile]

/-! ## Claim C1 — NAV-POSLLH with a missing accuracy field -/

/-- A NAV-POSLLH message that is valid up to (and excluding) its horizontal
accuracy field: the accuracy attribute is missing. -/
def posllhNoAcc : ParsedMessage :=
  { identity := "NAV-POSLLH", iTOW := some 500, lat := some 473397625,
    lon := some 85000000, hMSL := some 412345 }

/-- C1 counterexample: processing an otherwise valid position message whose
accuracy field is missing does NOT leave the previously stored latitude
unchanged — the latitude was already assigned the new message's value before
the failing accuracy extraction. -/
theorem posllh_missing_acc_changes_latlon :
    ((process_NAV_POSLLH {} posllhNoAcc initState).1).lat ≠ initState.lat := by
  simp [process_NAV_POSLLH, posllhNoAcc, posllhSteps, tryRun, initState]

/-- C1 amended: processing a position message that is valid up to the
missing accuracy field raises a `DecodeFieldError` which is caught at the
handler boundary (the handler returns, emitting no outputs), the fields
assigned before the accuracy extraction (time, latitude, longitude,
altitude) hold the NEW message's values, and the fields from the accuracy
extraction onward (hacc, vacc, and all others) retain their prior values. -/
theorem posllh_missing_acc_prefix (settings : Settings) (s : UBXState)
    (d : ParsedMessage) (i la lo hm : ℤ)
    (h1 : d.iTOW = some i) (h2 : d.lat = some la) (h3 : d.lon = some lo)
    (h4 : d.hMSL = some hm) (h5 : d.hAcc = none) :
    process_NAV_POSLLH settings d s =
      ({ s with utc := some (itow2utc i), lat := (la : ℚ) / 10 ^ 7,
                lon := (lo : ℚ) / 10 ^ 7, alt := (hm : ℚ) / 1000 }, [], true) := by
  simp [process_NAV_POSLLH, posllhSteps, h1, h2, h3, h4, h5, tryRun]

/-- Witness for the amended C1 at a concrete input. -/
theorem posllh_missing_acc_prefix_witness :
    process_NAV_POSLLH {} posllhNoAcc initState =
      ({ initState with utc := some (itow2utc 500), lat := (473397625 : ℚ) / 10 ^ 7,
                        lon := (85000000 : ℚ) / 10 ^ 7, alt := (412345 : ℚ) / 1000 },
       [], true) :=
  posllh_missing_acc_prefix {} initState posllhNoAcc 500 473397625 85000000 412345
    rfl rfl rfl rfl rfl

/-! ## Claim C9 — exact scale conversion in the position handler -/

/-- C9: the position handler's scale conversion is exact division: a raw
latitude of 473397625 (1e-7 degree units) is stored as exactly 47.3397625
degrees and a raw height-above-sea-level of 412345 mm as exactly 412.345 m
(numeric values are embedded as exact rationals). -/
theorem posllh_scale_exact (settings : Settings) (s : UBXState)
    (d : ParsedMessage) (i lo : ℤ)
    (h1 : d.iTOW = some i) (h2 : d.lat = some 473397625)
    (h3 : d.lon = some lo) (h4 : d.hMSL = some 412345) :
    ((process_NAV_POSLLH settings d s).1).lat = 47.3397625 ∧
    ((process_NAV_POSLLH settings d s).1).alt = 412.345 := by
  rcases h5 : d.hAcc with _ | a <;> rcases h6 : d.vAcc with _ | b <;>
    simp [process_NAV_POSLLH, posllhSteps, h1, h2, h3, h4, h5, h6, tryRun] <;>
    norm_num

/-- Witness for C9 at a concrete input. -/
theorem posllh_scale_exact_witness :
    ((process_NAV_POSLLH {} posllhNoAcc initState).1).lat = 47.3397625 ∧
    ((process_NAV_POSLLH {} posllhNoAcc initState).1).alt = 412.345 :=
  posllh_scale_exact {} initState posllhNoAcc 500 85000000 rfl rfl rfl rfl

/-! ## Claim C4 — DOP scaling asymmetry, later message wins -/

/-- A dilution-of-precision message with raw pDOP 250. -/
def navDopMsg : ParsedMessage :=
  { identity := "NAV-DOP", pDOP := some 250, hDOP := some 100, vDOP := some 100 }

/-- A fully valid position-velocity-time message with raw pDOP 999. -/
def navPvtMsg : ParsedMessage :=
  { identity := "NAV-PVT", iTOW := some 1000, lat := some 473397625,
    lon := some 85000000, hMSL := some 412345, hAcc := some 5000,
    vAcc := some 6000, pDOP := some 999, numSV := some 7, gSpeed := some 150,
    headMot := some 1234567, fixType := some 3 }

/-- C4: processing a NAV-DOP message with raw pDOP 250 stores pdop = 2.5
(the DOP handler divides by 100); then processing a NAV-PVT message with raw
pDOP 999 stores pdop = 999 unscaled (the PVT handler applies no scale), and
the later message wins. -/
theorem dop_then_pvt_pdop_unscaled :
    ((process_NAV_DOP navDopMsg initState).1).pdop = 5 / 2 ∧
    ((process_NAV_PVT {} navPvtMsg ((process_NAV_DOP navDopMsg initState).1)).1).pdop
      = 999 := by
  constructor
  · simp [process_NAV_DOP, navDopMsg, dopSteps, tryRun, initState]
    norm_num
  · simp [process_NAV_DOP, process_NAV_PVT, navDopMsg, navPvtMsg, dopSteps,
          pvtSteps, tryRun, initState]

/-! ## Claim C5 — NAV-SVINFO fully replaces the satellite list -/

/-- C5: a satellite-info message advertising count `n` (with its `n` records
present) produces a `gsv_data` of exactly `n` records — the first `n`
`(svid, elev, azim, cno)` records of the message — fully replacing the prior
list, and emits banner, sky-view and graph updates. -/
theorem svinfo_replaces_list (d : ParsedMessage) (s : UBXState) (n : ℤ)
    (h1 : d.numCh = some n) (h2 : n.toNat ≤ d.svs.length) :
    process_NAV_SVINFO d s =
      ({ s with gsv_data := d.svs.take n.toNat },
       [Output.banner { siv := some n }, Output.sats (d.svs.take n.toNat),
        Output.graph (d.svs.take n.toNat) n], false) ∧
    ((process_NAV_SVINFO d s).1).gsv_data.length = n.toNat := by
  refine ⟨?_, ?_⟩ <;>
    simp [process_NAV_SVINFO, h1, h2, List.length_take, Nat.min_eq_left h2]

/-- A satellite-info message advertising 2 satellites, with both records. -/
def svinfoMsg : ParsedMessage :=
  { identity := "NAV-SVINFO", numCh := some 2,
    svs := [(1, 10, 20, 30), (2, 11, 21, 31)] }

/-- A state already holding a stale satellite list. -/
def svinfoPrior : UBXState := { initState with gsv_data := [(9, 9, 9, 9)] }

/-- Witness for C5 at a concrete input: the stale record is gone and the
list has exactly the advertised length. -/
theorem svinfo_replaces_list_witness :
    process_NAV_SVINFO svinfoMsg svinfoPrior =
      ({ svinfoPrior with gsv_data := [(1, 10, 20, 30), (2, 11, 21, 31)] },
       [Output.banner { siv := some 2 },
        Output.sats [(1, 10, 20, 30), (2, 11, 21, 31)],
        Output.graph [(1, 10, 20, 30), (2, 11, 21, 31)] 2], false) ∧
    ((process_NAV_SVINFO svinfoMsg svinfoPrior).1).gsv_data.length = 2 :=
  svinfo_replaces_list svinfoMsg svinfoPrior 2 rfl (by decide)

/-! ## Claim C8 — CFG-MSG updates are idempotent -/

/-- C8: applying the same config-message-rate response twice yields the same
Config State Store as applying it once — the second application overwrites
the entry with an equal tuple. -/
theorem cfg_msg_idempotent (d : ParsedMessage) (s s1 : UBXState)
    (h : process_CFG_MSG d s = .ok s1) :
    process_CFG_MSG d s1 = .ok s1 := by
  rcases hmc : d.msgClass with _ | mc <;> rcases hmi : d.msgID with _ | mid <;>
    simp [process_CFG_MSG, hmc, hmi] at h ⊢
  rcases hk : List.lookup (mc, mid) UBX_CONFIG_MESSAGES with _ | name <;>
    simp [hk] at h ⊢
  rcases hr1 : d.rateDDC with _ | r1 <;> rcases hr2 : d.rateUART1 with _ | r2 <;>
    rcases hr3 : d.rateUART2 with _ | r3 <;> rcases hr4 : d.rateUSB with _ | r4 <;>
    rcases hr5 : d.rateSPI with _ | r5 <;> rcases hr6 : d.reserved with _ | r6 <;>
    simp [hr1, hr2, hr3, hr4, hr5, hr6] at h ⊢
  subst h
  simp [storeInsert_idem]

/-- The CFG-MSG response polled for the first catalog entry, all rate fields
present. -/
def cfgMsgResp : ParsedMessage :=
  { identity := "CFG-MSG", msgClass := some 0xF0, msgID := some 0x00,
    rateDDC := some 0, rateUART1 := some 1, rateUART2 := some 0,
    rateUSB := some 1, rateSPI := some 0, reserved := some 1 }

/-- The state after applying `cfgMsgResp` once to the fresh state. -/
def cfgMsgOnce : UBXState :=
  { initState with ubx_state := [(("GGA"), ConfigVal.rates 0 1 0 1 0 1)] }

/-- Witness for C8 at a concrete input. -/
theorem cfg_msg_idempotent_witness :
    process_CFG_MSG cfgMsgResp cfgMsgOnce = .ok cfgMsgOnce :=
  cfg_msg_idempotent cfgMsgResp initState cfgMsgOnce rfl

/-! ## Claim C6 — the config poller polls every catalog entry exactly once -/

/-- C6: one invocation of the config poller emits exactly one CFG-PRT poll,
exactly one CFG-USB poll, exactly one CFG-MSG rate poll per catalog entry
(its payload the entry's class+id key, in catalog order), and exactly one
CFG-INF poll, with total length catalog + 3; the emission is a pure value,
written fire-and-forget with no response correlation. -/
theorem poll_ubx_config_exhaustive :
    poll_ubx_config.length = UBX_CONFIG_MESSAGES.length + 3 ∧
    poll_ubx_config.count { msgtype := "CFG-PRT" } = 1 ∧
    poll_ubx_config.count { msgtype := "CFG-USB" } = 1 ∧
    poll_ubx_config.count { msgtype := "CFG-INF", payload := [0] } = 1 ∧
    UBX_CONFIG_MESSAGES.map (fun e => poll_ubx_config.count (cfgMsgPoll e)) =
      List.replicate UBX_CONFIG_MESSAGES.length 1 ∧
    (poll_ubx_config.filter (fun p => p.msgtype = "CFG-MSG")).map PollOut.payload =
      UBX_CONFIG_MESSAGES.map (fun e => [e.1.1, e.1.2]) := by
  decide

/-! ## Claim C7 — unregistered identities cause no state mutation -/

/-- C7: a successfully parsed message whose identity is none of the nine
registered handler identities invokes no handler: the state (Config State
Store, NavigationState and satellite list) is returned unchanged and the
only emitted output is the console echo. -/
theorem unregistered_identity_no_mutation (settings : Settings) (s : UBXState)
    (bs : List ℕ) (d : ParsedMessage)
    (hp : UBXMessage.parse bs false = .ok d)
    (hid : d.identity ∉ registeredIdentities) :
    process_data settings s bs = .ok (s, [consoleOut settings bs d], d) := by
  have h1 : ¬ d.identity = "CFG-MSG" := fun h => hid (by rw [h]; decide)
  have h2 : ¬ d.identity = "CFG-PRT" := fun h => hid (by rw [h]; decide)
  have h3 : ¬ d.identity = "CFG-INF" := fun h => hid (by rw [h]; decide)
  have h4 : ¬ d.identity = "NAV-POSLLH" := fun h => hid (by rw [h]; decide)
  have h5 : ¬ d.identity = "NAV-PVT" := fun h => hid (by rw [h]; decide)
  have h6 : ¬ d.identity = "NAV-VELNED" := fun h => hid (by rw [h]; decide)
  have h7 : ¬ d.identity = "NAV-SVINFO" := fun h => hid (by rw [h]; decide)
  have h8 : ¬ d.identity = "NAV-SOL" := fun h => hid (by rw [h]; decide)
  have h9 : ¬ d.identity = "NAV-DOP" := fun h => hid (by rw [h]; decide)
  simp [process_data, hp, cfgStage, runCfg, runNav, Except.bind, h1, h2, h3,
        h4, h5, h6, h7, h8, h9]

/-- A valid CFG-USB response frame (class 0x06, id 0x1B, empty payload,
correct checksum): parses fine, but no handler is registered for it. -/
def cfgUsbFrame : List ℕ := [0xB5, 0x62, 0x06, 0x1B, 0, 0, 33, 105]

/-- Witness for C7 at a concrete input. -/
theorem unregistered_identity_no_mutation_witness :
    process_data {} initState cfgUsbFrame =
      .ok (initState, [consoleOut {} cfgUsbFrame { identity := "CFG-USB" }],
           { identity := "CFG-USB" }) :=
  unregistered_identity_no_mutation {} initState cfgUsbFrame
    { identity := "CFG-USB" } rfl (by decide)

/-! ## Claim C2 — config-handler decode errors are NOT suppressed -/

/-- A CFG-MSG response frame whose payload is 3 bytes (correct checksum):
the target class/id and rateDDC decode, but the remaining rate fields are
missing, so rate extraction fails. -/
def cfgMsgShortFrame : List ℕ := [0xB5, 0x62, 0x06, 0x01, 3, 0, 0xF0, 0, 1, 251, 16]

/-- C2 counterexample: a CFG-MSG message with a failing field extraction
does NOT have its `DecodeFieldError` suppressed by the handler — the error
escapes and aborts the dispatcher's process call. -/
theorem cfg_msg_error_aborts_dispatch :
    process_data {} initState cfgMsgShortFrame =
      .error (PipelineError.decode ⟨"CFG-MSG rates"⟩) := by
  rfl

/-- C2 amended: for each config handler (CFG-MSG, CFG-PRT, CFG-INF), a field
extraction failure leaves the Config State Store unchanged (the store write
is the handler's final statement, so an erroring handler returns no state at
all), but the `DecodeFieldError` is not suppressed: it propagates out of the
handler and aborts the dispatcher's process call for that frame. -/
theorem cfg_error_escapes (settings : Settings) (s : UBXState) (bs : List ℕ)
    (d : ParsedMessage) (e : DecodeFieldError)
    (hp : UBXMessage.parse bs false = .ok d) :
    (d.identity = "CFG-MSG" → process_CFG_MSG d s = .error e →
       process_data settings s bs = .error (PipelineError.decode e)) ∧
    (d.identity = "CFG-PRT" → process_CFG_PRT d s = .error e →
       process_data settings s bs = .error (PipelineError.decode e)) ∧
    (d.identity = "CFG-INF" → process_CFG_INF d s = .error e →
       process_data settings s bs = .error (PipelineError.decode e)) := by
  refine ⟨fun hid herr => ?_, fun hid herr => ?_, fun hid herr => ?_⟩
  · have n2 : ¬ d.identity = "CFG-PRT" := by rw [hid]; decide
    have n3 : ¬ d.identity = "CFG-INF" := by rw [hid]; decide
    simp [process_data, hp, cfgStage, runCfg, Except.bind, hid, herr, n2, n3]
  · have n1 : ¬ d.identity = "CFG-MSG" := by rw [hid]; decide
    have n3 : ¬ d.identity = "CFG-INF" := by rw [hid]; decide
    simp [process_data, hp, cfgStage, runCfg, Except.bind, hid, herr, n1, n3]
  · have n1 : ¬ d.identity = "CFG-MSG" := by rw [hid]; decide
    have n2 : ¬ d.identity = "CFG-PRT" := by rw [hid]; decide
    simp [process_data, hp, cfgStage, runCfg, Except.bind, hid, herr, n1, n2]

/-- A CFG-PRT response frame whose payload is 2 bytes (correct checksum):
every port-config field is missing. -/
def cfgPrtShortFrame : List ℕ := [0xB5, 0x62, 0x06, 0x00, 2, 0, 0, 0, 8, 44]

/-- Witness for the amended C2 at a concrete input (a truncated CFG-PRT
response). -/
theorem cfg_error_escapes_witness :
    process_data {} initState cfgPrtShortFrame =
      .error (PipelineError.decode ⟨"CFG-PRT fields"⟩) :=
  (cfg_error_escapes {} initState cfgPrtShortFrame
    (decodePayload ("CFG-PRT") [0, 0]) ⟨"CFG-PRT fields"⟩ rfl).2.1 rfl rfl

/-! ## Claim C3 — a corrupted checksum under strict and permissive parsing -/

/-- C3 amended: a frame whose checksum bytes do not match the checksum
computed over class..payload fails with `FramingError` when parsed in
strict mode; the dispatcher's process call, however, parses permissively
(`parse(data, False)`), so the frame instead yields a message with the
explicit "unknown" identity, no handler is invoked, no `FramingError` is
raised, and the Config State Store and NavigationState are returned exactly
as they were (only the console echo is emitted). -/
theorem corrupt_checksum_behavior (bs : List ℕ)
    (h1 : syncOk bs = true) (h2 : lenOk bs = true) (h3 : ckOk bs = false) :
    UBXMessage.parse bs true = .error ⟨"checksum"⟩ ∧
    ∀ (settings : Settings) (s : UBXState),
      process_data settings s bs =
        .ok (s, [consoleOut settings bs { identity := "unknown" }],
             { identity := "unknown" }) := by
  have hr : framingReason bs = some ("checksum") := by
    simp [framingReason, h1, h2, h3]
  constructor
  · simp [UBXMessage.parse, hr]
  · intro settings s
    simp [process_data, UBXMessage.parse, hr, cfgStage, runCfg, runNav,
          Except.bind]

/-- A NAV-DOP frame (class 0x01, id 0x04, 18-byte payload, raw pDOP 250)
whose stored checksum bytes are zeroed out — a corrupted checksum. -/
def corruptDopFrame : List ℕ :=
  [0xB5, 0x62, 0x01, 0x04, 18, 0,
   0, 0, 0, 0, 0, 0, 250, 0, 0, 0, 0, 0, 0, 0, 0, 0, 0, 0,
   0, 0]

/-- C3 counterexample: processing a frame with a corrupted checksum does NOT
yield `FramingError` — the permissive parse inside `process_data` succeeds
(with an "unknown"-identity message). -/
theorem corrupt_checksum_no_framing_error :
    (process_data {} initState corruptDopFrame).isOk = true := by
  rfl

/-- Witness for the amended C3 at a concrete corrupted frame. -/
theorem corrupt_checksum_behavior_witness :
    UBXMessage.parse corruptDopFrame true = .error ⟨"checksum"⟩ ∧
    process_data {} initState corruptDopFrame =
      .ok (initState,
           [consoleOut {} corruptDopFrame { identity := "unknown" }],
           { identity := "unknown" }) :=
  ⟨(corrupt_checksum_behavior corruptDopFrame (by decide) (by decide) (by decide)).1,
   (corrupt_checksum_behavior corruptDopFrame (by decide) (by decide) (by decide)).2
     {} initState⟩
